import Mathlib

/-
  Shallow embedding of the RealEstateAI presentation/proxy layer
  (Next.js app: chat page `real-estate-chatbot/page.tsx`, proxy routes
  `api/upload/route.ts` and `api/chatbot/route.ts`, and the chat-input /
  results-panel components), together with theorems settling the frozen
  claims about it.
-/

namespace RealEstateAI

/-- Scalar JSON-like values, enough to model the payload fields and opaque
backend bodies that flow through the proxy layer. -/
inductive Json where
  | null : Json
  | bool (b : Bool) : Json
  | num (n : Int) : Json
  | str (s : String) : Json
deriving DecidableEq, Repr

/-- A chat message, mirroring the `Message` interface of the page:
`{ id, text, isUser, timestamp }`. Timestamps are modelled as naturals. -/
structure Message where
  id : String
  text : String
  isUser : Bool
  timestamp : Nat
deriving DecidableEq, Repr

/-- The chart payload `{ years, prices, demand }` of an `AnalysisResult`. -/
structure ChartData where
  years : List Int
  prices : List Int
  demand : List Int
deriving DecidableEq, Repr

/-- A table row: `Record<string, any>` modelled as an association list. -/
abbrev TableRow := List (String × Json)

/-- The `AnalysisResult` interface of the page. -/
structure AnalysisResult where
  summary : String
  chart : ChartData
  table : List TableRow
deriving DecidableEq, Repr

/-- The React state of the chat page that the claims are about. -/
structure ChatState where
  messages : List Message
  results : Option AnalysisResult
  error : Option String
  uploadedFile : Option String
  hasUploadedData : Bool
deriving DecidableEq, Repr

/-- Body of a successful response of `POST /api/upload` as used by the page:
only the `id` field (`uploadResponse.data.id`) is read. -/
structure UploadResp where
  id : Int
deriving DecidableEq, Repr

/-- Body of a successful response of `POST /api/chatbot` as used by the page:
`{ response, chart?, table? }`. -/
structure ChatResp where
  response : String
  chart : Option ChartData
  table : Option (List TableRow)
deriving DecidableEq, Repr

/-- The environment of one `handleSendMessage` call: the clock value used for
ids, the stored session id (localStorage), and the outcomes the two axios
calls would have (an `Except.error` models a thrown/rejected request; for the
chat page the carried string is the derived `errorMessage`). -/
structure SendEnv where
  now : Nat
  storedSessionId : Option String
  uploadResult : Except String UploadResp
  chatResult : Except String ChatResp

/-- A network request issued by `handleSendMessage`, in issue order. -/
inductive Request where
  | upload (fileName : String) (sessionId : String) : Request
  | chat (payload : List (String × Json)) : Request
deriving DecidableEq, Repr

/-- The hardcoded fallback chart used when `chatResponse.data.chart` is falsy. -/
def defaultChart : ChartData :=
  { years := [2021, 2022, 2023, 2024]
  , prices := [250000, 300000, 350000, 400000]
  , demand := [6, 7, 8, 9] }

/-- The hardcoded fallback table used when `chatResponse.data.table` is falsy. -/
def defaultTable : List TableRow :=
  [ [("location", .str "Wakad"), ("price", .str "₹45L - ₹65L"), ("demand", .str "8/10")]
  , [("location", .str "Aundh"), ("price", .str "₹40L - ₹60L"), ("demand", .str "7/10")]
  , [("location", .str "Viman Nagar"), ("price", .str "₹50L - ₹70L"), ("demand", .str "9/10")] ]

/-- `localStorage.getItem("sessionId") || session-Date.now()`. -/
def sessionIdOf (env : SendEnv) : String :=
  env.storedSessionId.getD ("session-" ++ toString env.now)

/-- The user message appended at the start of `handleSendMessage`. -/
def userMessageOf (txt : String) (env : SendEnv) : Message :=
  { id := toString env.now, text := txt, isUser := true, timestamp := env.now }

/-- Text of the error bot message; `BACKEND_URL` is the constant `""` in the
page, so the interpolated tail reads `running at .`. -/
def errorBotText (errorMessage : String) : String :=
  "Sorry, I encountered an error: " ++ errorMessage ++
    ". Please make sure the backend server is running at ."

/-- The bot message appended in the catch branch. -/
def errorBotMessageOf (errorMessage : String) (env : SendEnv) : Message :=
  { id := toString (env.now + 1), text := errorBotText errorMessage
  , isUser := false, timestamp := env.now }

/-- The bot message appended on chat success (its text is `data.response`). -/
def botMessageOf (c : ChatResp) (env : SendEnv) : Message :=
  { id := toString (env.now + 1), text := c.response
  , isUser := false, timestamp := env.now }

/-- The chat payload built by the page: `{ message, session_id }` and nothing
else (in particular, no uploaded-data id field is added). -/
def chatPayloadOf (txt sid : String) : List (String × Json) :=
  [("message", .str txt), ("session_id", .str sid)]

/-- Shallow embedding of `handleSendMessage` of the chat page. Input: the
pre-call state, the message text, the optionally attached file (by name) and
the environment. Output: the post-call state and the list of proxy requests
issued, in order. -/
def handleSendMessage (st : ChatState) (messageText : String) (file : Option String)
    (env : SendEnv) : ChatState × List Request :=
  let sessionId := sessionIdOf env
  let uploadedFile1 := if file.isSome then file else st.uploadedFile
  let hasUploadedData1 := if file.isSome then true else st.hasUploadedData
  let messages1 := st.messages ++ [userMessageOf messageText env]
  let st1 : ChatState :=
    { st with messages := messages1, error := none
            , uploadedFile := uploadedFile1, hasUploadedData := hasUploadedData1 }
  let errorCase := fun (e : String) (reqs : List Request) =>
    ({ st1 with error := some e
              , messages := messages1 ++ [errorBotMessageOf e env] }, reqs)
  let chatStep := fun (reqsSoFar : List Request) =>
    let reqs := reqsSoFar ++ [Request.chat (chatPayloadOf messageText sessionId)]
    match env.chatResult with
    | .error e => errorCase e reqs
    | .ok c =>
        let results2 :=
          if st.hasUploadedData || file.isSome then
            some { summary := c.response
                 , chart := c.chart.getD defaultChart
                 , table := c.table.getD defaultTable }
          else none
        ({ st1 with messages := messages1 ++ [botMessageOf c env]
                  , results := results2 }, reqs)
  match file with
  | some f =>
      match env.uploadResult with
      | .error e => errorCase e [Request.upload f sessionId]
      | .ok _ => chatStep [Request.upload f sessionId]
  | none => chatStep []

/-- The messages a single `handleSendMessage` call appends: the user message,
then either the success bot message or the error bot message, depending on
which call (upload when a file is attached, else chat) fails first. -/
def sendTail (txt : String) (file : Option String) (env : SendEnv) : List Message :=
  match file, env.uploadResult with
  | some _, .error e => [userMessageOf txt env, errorBotMessageOf e env]
  | _, _ =>
    match env.chatResult with
    | .error e => [userMessageOf txt env, errorBotMessageOf e env]
    | .ok c => [userMessageOf txt env, botMessageOf c env]

/-- SummaryCard truncation: `summary.substring(0, 300) + '...'` when the
summary is longer than 300 characters, else the summary itself. The substring
is modelled by taking the first 300 characters. -/
def truncatedSummary (summary : String) : String :=
  if summary.length > 300 then String.mk (summary.data.take 300) ++ "..." else summary

/-- What the right-hand panel of the page shows: the `No Data Uploaded Yet`
card when `hasUploadedData` is false, the ResultsPanel placeholder when the
results state is null, and otherwise the rendered results (summary text after
SummaryCard truncation, plus the chart and table props). -/
inductive RightPanel where
  | noDataUploaded : RightPanel
  | resultsPlaceholder : RightPanel
  | resultsView (summaryText : String) (chart : ChartData) (table : List TableRow) : RightPanel
deriving DecidableEq, Repr

/-- Render of the right-hand side of the page for a given chat state. -/
def renderRightPanel (st : ChatState) : RightPanel :=
  if st.hasUploadedData then
    match st.results with
    | none => .resultsPlaceholder
    | some r => .resultsView (truncatedSummary r.summary) r.chart r.table
  else .noDataUploaded

/-- The summary text shown in the results view, when one is shown. -/
def displayedSummary (st : ChatState) : Option String :=
  match renderRightPanel st with
  | .resultsView s _ _ => some s
  | _ => none

/-- JavaScript `String(v)` on the scalar JSON values. -/
def jsToString : Json → String
  | .null => "null"
  | .bool b => if b then "true" else "false"
  | .num n => toString n
  | .str s => s

/-- `row[column]` lookup in a table row. -/
def rowLookup (row : TableRow) (c : String) : Option Json :=
  (row.find? (fun kv => kv.1 == c)).map Prod.snd

/-- Helper of `insertionDedup`: drop elements already seen. -/
def insertionDedupAux (seen : List String) : List String → List String
  | [] => []
  | c :: cs =>
    if seen.contains c then insertionDedupAux seen cs
    else c :: insertionDedupAux (c :: seen) cs

/-- First-occurrence deduplication, as `Array.from(new Set(...))` does. -/
def insertionDedup (l : List String) : List String := insertionDedupAux [] l

/-- What the DataTable component renders: the `No data available` card for a
missing or empty `data` prop, else a table whose columns are the deduplicated
union of row keys and whose cells are `String(row[column])` or `-`. -/
inductive TableView where
  | noData : TableView
  | rows (columns : List String) (cells : List (List String)) : TableView
deriving DecidableEq, Repr

/-- Render of the DataTable component for a table prop. -/
def dataTableView (data : List TableRow) : TableView :=
  if data.isEmpty then .noData
  else
    let columns := insertionDedup ((data.map (fun row => row.map Prod.fst)).flatten)
    .rows columns (data.map (fun row => columns.map (fun c =>
      match rowLookup row c with
      | some v => jsToString v
      | none => "-")))

/-- A backend HTTP response as seen by a route via `fetch`: status, status
text, and the outcome of `response.json()` (which may throw). -/
structure BackendResp where
  status : Nat
  statusText : String
  jsonBody : Except String Json

/-- `response.ok` of fetch: status in [200, 300). -/
def respOk (r : BackendResp) : Bool := 200 ≤ r.status && r.status < 300

/-- Outcome of the route's `fetch` call: a network error (rejection) or a
response object. -/
inductive FetchOutcome where
  | networkError (msg : String) : FetchOutcome
  | response (r : BackendResp) : FetchOutcome

/-- Body of a response a route returns: a passed-through JSON value, or an
error object `{ error: msg }` built by the route itself. -/
inductive RouteBody where
  | json (j : Json) : RouteBody
  | errorObj (msg : String) : RouteBody
deriving DecidableEq, Repr

/-- An HTTP response a route returns to its caller. -/
structure RouteResult where
  status : Nat
  body : RouteBody
deriving DecidableEq, Repr

/-- `error.message || 'Upload failed'` of the upload route's catch clause. -/
def uploadFailMsg (msg : String) : String :=
  if msg = "" then "Upload failed" else msg

/-- Shallow embedding of `POST` of `api/upload/route.ts`. Everything runs
inside one try/catch: form-data parsing, the backend fetch, an explicit
`throw` on a non-ok backend response, and backend JSON parsing; any failure
yields `{ error: ... }` with status 500, and an ok backend response's JSON is
returned with the default status 200. -/
def uploadPOST (formDataReq : Except String Unit) (fetched : FetchOutcome) : RouteResult :=
  match formDataReq with
  | .error e => { status := 500, body := .errorObj (uploadFailMsg e) }
  | .ok _ =>
    match fetched with
    | .networkError e => { status := 500, body := .errorObj (uploadFailMsg e) }
    | .response r =>
      if respOk r then
        match r.jsonBody with
        | .error e => { status := 500, body := .errorObj (uploadFailMsg e) }
        | .ok j => { status := 200, body := .json j }
      else
        { status := 500, body := .errorObj (uploadFailMsg ("Backend error: " ++ r.statusText)) }

/-- Shallow embedding of `POST` of `api/chatbot/route.ts`. The request body is
parsed by `await request.json()` BEFORE the try block, so a malformed request
body propagates as an uncaught exception (modelled by `Except.error`). Inside
the try, a fetch rejection or a malformed backend body yields
`{ error: 'Backend error' }` with status 500, and otherwise the backend JSON
is passed through with the backend's status code. -/
def chatbotPOST (reqBody : Except String Json) (fetched : FetchOutcome) :
    Except String RouteResult :=
  match reqBody with
  | .error e => .error e
  | .ok _ =>
    match fetched with
    | .networkError _ => .ok { status := 500, body := .errorObj "Backend error" }
    | .response r =>
      match r.jsonBody with
      | .error _ => .ok { status := 500, body := .errorObj "Backend error" }
      | .ok j => .ok { status := r.status, body := .json j }

/-- A file as seen by the chat input's change handler: name and MIME type. -/
structure SelFile where
  name : String
  mime : String
deriving DecidableEq, Repr

/-- The `validTypes` MIME list of `handleFileChange` in ChatInput. -/
def validTypes : List String :=
  [ "application/vnd.ms-excel"
  , "application/vnd.openxmlformats-officedocument.spreadsheetml.sheet"
  , "text/csv" ]

/-- JavaScript `s.endsWith(suffix)`, modelled on the character lists. -/
def strEndsWith (s suffix : String) : Bool :=
  suffix.data.isSuffixOf s.data

/-- The acceptance test of `handleFileChange`: MIME in `validTypes` or a name
ending in `.xlsx`, `.xls` or `.csv`. -/
def fileAccepted (f : SelFile) : Bool :=
  validTypes.contains f.mime || strEndsWith f.name ".xlsx" ||
    strEndsWith f.name ".xls" || strEndsWith f.name ".csv"

/-- The ChatInput component state the claims are about. -/
structure InputState where
  message : String
  selectedFile : Option SelFile
deriving DecidableEq, Repr

/-- Shallow embedding of `handleFileChange`: on a chosen file, store it when
accepted, else alert and leave the state unchanged. The boolean is whether the
alert was shown. -/
def handleFileChange (st : InputState) (chosen : Option SelFile) : InputState × Bool :=
  match chosen with
  | none => (st, false)
  | some f =>
    if fileAccepted f then ({ st with selectedFile := some f }, false)
    else (st, true)

/-- Whether some field of a chat payload carries the number `n`. -/
def payloadHasNum (n : Int) (payload : List (String × Json)) : Bool :=
  payload.any (fun kv => kv.2 == Json.num n)

/-- The error message of a failing send, when the send fails: the upload
error when a file is attached and the upload rejects, else the chat error
when the chat call rejects. -/
def sendFailure (file : Option String) (env : SendEnv) : Option String :=
  match file, env.uploadResult with
  | some _, .error e => some e
  | _, _ =>
    match env.chatResult with
    | .error e => some e
    | .ok _ => none

/-- The initial chat-page state (empty conversation, nothing uploaded). -/
def st0 : ChatState :=
  { messages := [], results := none, error := none
  , uploadedFile := none, hasUploadedData := false }

/-- A small concrete chart payload used in concrete runs. -/
def chart0 : ChartData := { years := [2020], prices := [100], demand := [5] }

/-- A small concrete table payload used in concrete runs. -/
def table0 : List TableRow := [[("location", .str "Baner")]]

/-- Environment of a concrete send whose upload call fails. -/
def envUploadFail : SendEnv :=
  { now := 100, storedSessionId := some "s1"
  , uploadResult := .error "Request failed with status code 500"
  , chatResult := .ok { response := "ok", chart := some chart0, table := some table0 } }

/-- Environment of a concrete send whose upload succeeds with id 42 and whose
chat call succeeds. -/
def env42 : SendEnv :=
  { now := 100, storedSessionId := some "s1"
  , uploadResult := .ok { id := 42 }
  , chatResult := .ok { response := "ok", chart := some chart0, table := some table0 } }

/-- Environment of a concrete send whose chat call fails. -/
def envChatFail : SendEnv :=
  { now := 100, storedSessionId := some "s1"
  , uploadResult := .ok { id := 7 }
  , chatResult := .error "Network Error" }

/-- A 301-character summary, long enough to be truncated by SummaryCard. -/
def longSummary : String := String.mk (List.replicate 301 'a')

/-- Environment of a concrete send whose chat response carries the long
summary together with a chart and a table. -/
def envC5 : SendEnv :=
  { now := 100, storedSessionId := some "s1"
  , uploadResult := .ok { id := 7 }
  , chatResult := .ok { response := longSummary, chart := some chart0, table := some table0 } }

/-- Environment of a concrete send whose chat response has neither a chart
nor a table field. -/
def envC6 : SendEnv :=
  { now := 100, storedSessionId := some "s1"
  , uploadResult := .ok { id := 7 }
  , chatResult := .ok { response := "ok", chart := none, table := none } }

/-- A concrete non-2xx backend response with a JSON body. -/
def backend404 : BackendResp :=
  { status := 404, statusText := "Not Found", jsonBody := .ok (.str "detail") }

/-- A concrete ok backend response with a JSON body. -/
def backendOk200 : BackendResp :=
  { status := 200, statusText := "OK", jsonBody := .ok (.num 5) }

/-- A concrete ok backend response whose body fails to parse as JSON. -/
def backendBadJson : BackendResp :=
  { status := 200, statusText := "OK", jsonBody := .error "Unexpected token" }

/-- The initial ChatInput state. -/
def inp0 : InputState := { message := "", selectedFile := none }

/-- A concrete file accepted through its `.xlsx` name suffix. -/
def fileXlsx : SelFile := { name := "data.xlsx", mime := "application/octet-stream" }

/-- A concrete file that is neither of a valid MIME type nor validly named. -/
def filePdf : SelFile := { name := "report.pdf", mime := "application/pdf" }

/-- Helper: the string built for a non-ok backend response is never empty, so
the `error.message || 'Upload failed'` fallback leaves it unchanged. -/
theorem backendErr_ne_empty (s : String) : ¬("Backend error: " ++ s) = "" := by
  intro h
  have h2 := congrArg String.length h
  simp [String.length_append] at h2
  exact absurd h2.1 (by decide)

/-- Helper: every `handleSendMessage` call extends the message list by exactly
the `sendTail` of its inputs. -/
theorem handle_messages_eq (st : ChatState) (txt : String) (file : Option String)
    (env : SendEnv) :
    (handleSendMessage st txt file env).1.messages = st.messages ++ sendTail txt file env := by
  unfold handleSendMessage sendTail
  cases file <;> cases hu : env.uploadResult <;> cases hc : env.chatResult <;> simp [hu, hc]

/-- Helper: the long summary has 301 characters. -/
theorem longSummary_length : longSummary.length = 301 := by
  show longSummary.data.length = 301
  show (List.replicate 301 'a').length = 301
  rw [List.length_replicate]

/-- Helper: SummaryCard changes the long summary (301 characters become 303). -/
theorem truncatedSummary_longSummary_ne : truncatedSummary longSummary ≠ longSummary := by
  intro h
  have hgt : longSummary.length > 300 := by rw [longSummary_length]; omega
  have htr : truncatedSummary longSummary =
      String.mk (longSummary.data.take 300) ++ "..." := by
    unfold truncatedSummary
    rw [if_pos hgt]
  have hlen : (truncatedSummary longSummary).length = 303 := by
    rw [htr, String.length_append]
    have h1 : (String.mk (longSummary.data.take 300)).length = 300 := by
      show (longSummary.data.take 300).length = 300
      have : longSummary.data.length = 301 := longSummary_length
      rw [List.length_take, this]
      decide
    rw [h1]
    decide
  have := congrArg String.length h
  rw [hlen, longSummary_length] at this
  exact absurd this (by decide)

/-- Claim C1: for every send with a file attached, the first request issued is
the upload request (so the upload precedes any chat request), and when the
upload fails the request trace is exactly the upload request — the chat
request is never issued — and the handler goes straight to error handling,
appending the error bot message after the user message. -/
theorem claim1_upload_precedes_chat (st : ChatState) (txt f : String) (env : SendEnv) :
    (handleSendMessage st txt (some f) env).2.head? =
      some (Request.upload f (sessionIdOf env)) ∧
    (∀ e, env.uploadResult = Except.error e →
      (handleSendMessage st txt (some f) env).2 =
        [Request.upload f (sessionIdOf env)] ∧
      (handleSendMessage st txt (some f) env).1.messages =
        st.messages ++ [userMessageOf txt env, errorBotMessageOf e env]) := by
  constructor
  · unfold handleSendMessage
    cases hu : env.uploadResult <;> cases hc : env.chatResult <;> simp [hu, hc]
  · intro e he
    unfold handleSendMessage
    simp [he]

/-- Witness for C1: a concrete send with a failing upload issues only the
upload request. -/
theorem claim1_witness :
    (handleSendMessage st0 "hi" (some "d.xlsx") envUploadFail).2 =
      [Request.upload "d.xlsx" (sessionIdOf envUploadFail)] :=
  ((claim1_upload_precedes_chat st0 "hi" "d.xlsx" envUploadFail).2
    "Request failed with status code 500" rfl).1

/-- Claim C2 (code-bug evaluation): in a concrete send where the upload
succeeds with id 42, the chat request is issued with the payload
`{ message, session_id }` only; no payload field carries the id 42. The page
stores `uploadResponse.data.id` in the local `uploadedDataId` and never uses
it, so the identifier is not attached to the chat call, contradicting the
documented upload-then-chat contract. -/
theorem claim2_upload_id_never_attached :
    env42.uploadResult = Except.ok { id := 42 } ∧
    (handleSendMessage st0 "hi" (some "d.xlsx") env42).2 =
      [Request.upload "d.xlsx" "s1", Request.chat (chatPayloadOf "hi" "s1")] ∧
    payloadHasNum 42 (chatPayloadOf "hi" "s1") = false :=
  ⟨rfl, by decide, by decide⟩

/-- Claim C8: every `handleSendMessage` call only appends to the message list:
the new list is the old list followed by the call's tail of new messages, so
previously present messages are never reordered, removed or mutated and
chronological insertion order is preserved. -/
theorem claim8_messages_append_only (st : ChatState) (txt : String)
    (file : Option String) (env : SendEnv) :
    (handleSendMessage st txt file env).1.messages =
      st.messages ++ sendTail txt file env :=
  handle_messages_eq st txt file env

/-- Claim C10: on a send with no file attached and no previous upload in the
session, a successful chat response resets the results state to null, the
session still counts as having no uploaded data, and the right panel renders
the `No Data Uploaded Yet` placeholder rather than any analysis. -/
theorem claim10_results_require_upload (st : ChatState) (txt : String) (env : SendEnv)
    (c : ChatResp) (h0 : st.hasUploadedData = false) (hc : env.chatResult = Except.ok c) :
    (handleSendMessage st txt none env).1.results = none ∧
    (handleSendMessage st txt none env).1.hasUploadedData = false ∧
    renderRightPanel (handleSendMessage st txt none env).1 = RightPanel.noDataUploaded := by
  unfold handleSendMessage
  simp [hc, h0, renderRightPanel]

/-- Witness for C10: a concrete file-less send on a fresh session shows the
placeholder. -/
theorem claim10_witness :
    renderRightPanel (handleSendMessage st0 "hi" none env42).1 = RightPanel.noDataUploaded :=
  (claim10_results_require_upload st0 "hi" env42
    { response := "ok", chart := some chart0, table := some table0 } rfl rfl).2.2

/-- Counterexample to C3: on a concrete non-2xx backend response (404 with a
JSON body), the upload route does not return that body with the backend's
status; it returns its own `{ error: 'Backend error: Not Found' }` with
status 500. -/
theorem claim3_counterexample :
    uploadPOST (.ok ()) (.response backend404) =
      { status := 500, body := .errorObj "Backend error: Not Found" } ∧
    uploadPOST (.ok ()) (.response backend404) ≠
      { status := 404, body := .json (.str "detail") } :=
  ⟨by decide, by decide⟩

/-- Claim C3 as amended: for ok (2xx) backend responses whose body parses, the
upload route returns the backend's JSON body unmodified, but always with
status 200 rather than the backend's exact status; for non-2xx backend
responses it discards the body and returns `{ error: 'Backend error:
<statusText>' }` with status 500. -/
theorem claim3_amended_upload_route (r : BackendResp) (j : Json) :
    (respOk r = true → r.jsonBody = Except.ok j →
      uploadPOST (.ok ()) (.response r) = { status := 200, body := .json j }) ∧
    (respOk r = false →
      uploadPOST (.ok ()) (.response r) =
        { status := 500, body := .errorObj ("Backend error: " ++ r.statusText) }) := by
  constructor
  · intro hok hbody
    simp [uploadPOST, hok, hbody]
  · intro hok
    have hne := backendErr_ne_empty r.statusText
    simp [uploadPOST, hok, uploadFailMsg, hne]

/-- Witness for C3 as amended: a concrete ok backend response is passed
through with status 200, and a concrete 404 becomes the route's own 500. -/
theorem claim3_witness :
    uploadPOST (.ok ()) (.response backendOk200) =
      { status := 200, body := .json (.num 5) } ∧
    uploadPOST (.ok ()) (.response backend404) =
      { status := 500, body := .errorObj ("Backend error: " ++ "Not Found") } :=
  ⟨(claim3_amended_upload_route backendOk200 (.num 5)).1 rfl rfl,
   (claim3_amended_upload_route backend404 (.str "detail")).2 rfl⟩

/-- Counterexample to C4: a malformed JSON request body to the chatbot route
is parsed before the try block, so the failure escapes the handler as an
uncaught exception (modelled by `Except.error`) instead of being caught and
returned as a JSON error response. -/
theorem claim4_counterexample :
    chatbotPOST (Except.error "Unexpected end of JSON input") (.response backend404) =
      Except.error "Unexpected end of JSON input" := rfl

/-- Claim C4 as amended: the upload route catches every failure mode
(malformed request form data, network error, non-2xx backend response,
malformed backend JSON) and returns a JSON error object with status 500; the
chatbot route catches network errors and malformed backend JSON (returning
`{ error: 'Backend error' }` with status 500) and passes any parseable
backend response through with its status; but a malformed JSON request body
to the chatbot route propagates as an uncaught exception. -/
theorem claim4_amended_proxy_error_handling (e : String) (b : Json)
    (r : BackendResp) (j : Json) (fo : FetchOutcome) :
    (uploadPOST (.error e) fo = { status := 500, body := .errorObj (uploadFailMsg e) }) ∧
    (uploadPOST (.ok ()) (.networkError e) =
      { status := 500, body := .errorObj (uploadFailMsg e) }) ∧
    (respOk r = true → r.jsonBody = Except.error e →
      uploadPOST (.ok ()) (.response r) =
        { status := 500, body := .errorObj (uploadFailMsg e) }) ∧
    (respOk r = false →
      uploadPOST (.ok ()) (.response r) =
        { status := 500, body := .errorObj (uploadFailMsg ("Backend error: " ++ r.statusText)) }) ∧
    (chatbotPOST (.ok b) (.networkError e) =
      Except.ok { status := 500, body := .errorObj "Backend error" }) ∧
    (r.jsonBody = Except.error e →
      chatbotPOST (.ok b) (.response r) =
        Except.ok { status := 500, body := .errorObj "Backend error" }) ∧
    (r.jsonBody = Except.ok j →
      chatbotPOST (.ok b) (.response r) =
        Except.ok { status := r.status, body := .json j }) ∧
    (chatbotPOST (.error e) (.response r) = Except.error e) := by
  refine ⟨?_, rfl, ?_, ?_, rfl, ?_, ?_, rfl⟩
  · cases fo <;> rfl
  · intro hok hbody
    simp [uploadPOST, hok, hbody]
  · intro hok
    simp [uploadPOST, hok]
  · intro hbody
    simp [chatbotPOST, hbody]
  · intro hbody
    simp [chatbotPOST, hbody]

/-- Witness for C4 as amended: concrete instances of a caught backend-JSON
failure in each route. -/
theorem claim4_witness :
    uploadPOST (.ok ()) (.response backendBadJson) =
      { status := 500, body := .errorObj (uploadFailMsg "Unexpected token") } ∧
    chatbotPOST (.ok (.str "q")) (.response backendBadJson) =
      Except.ok { status := 500, body := .errorObj "Backend error" } :=
  ⟨((claim4_amended_proxy_error_handling "Unexpected token" (.str "q") backendBadJson
      (.num 0) (.networkError "x")).2.2.1) rfl rfl,
   ((claim4_amended_proxy_error_handling "Unexpected token" (.str "q") backendBadJson
      (.num 0) (.networkError "x")).2.2.2.2.2.1) rfl⟩

/-- Claim C7: for every attempted send that fails — upload rejection when a
file is attached, else chat rejection — the handler appends exactly the user
message and one bot-authored error message: one additional bot message for
the send, and no more. -/
theorem claim7_single_error_message (st : ChatState) (txt : String)
    (file : Option String) (env : SendEnv) (e : String)
    (h : sendFailure file env = some e) :
    (handleSendMessage st txt file env).1.messages =
      st.messages ++ [userMessageOf txt env, errorBotMessageOf e env] ∧
    (userMessageOf txt env).isUser = true ∧
    (errorBotMessageOf e env).isUser = false ∧
    ((handleSendMessage st txt file env).1.messages.drop st.messages.length).countP
      (fun m => !m.isUser) = 1 := by
  have hmsg := handle_messages_eq st txt file env
  have htail : sendTail txt file env = [userMessageOf txt env, errorBotMessageOf e env] := by
    unfold sendFailure at h
    unfold sendTail
    cases file <;> cases hu : env.uploadResult <;> cases hc : env.chatResult <;>
      simp [hu, hc] at h ⊢ <;> simp [h]
  refine ⟨by rw [hmsg, htail], rfl, rfl, ?_⟩
  rw [hmsg, htail, List.drop_left]
  simp [List.countP_cons, userMessageOf, errorBotMessageOf]

/-- Witness for C7: a concrete send whose upload fails appends exactly the
user message and the single error bot message. -/
theorem claim7_witness :
    (handleSendMessage st0 "hi" (some "d.xlsx") envUploadFail).1.messages =
      st0.messages ++ [userMessageOf "hi" envUploadFail,
        errorBotMessageOf "Request failed with status code 500" envUploadFail] :=
  (claim7_single_error_message st0 "hi" (some "d.xlsx") envUploadFail
    "Request failed with status code 500" rfl).1

/-- Claim C9: a file chosen in the chat input is stored as the selected file
exactly when its MIME type is in the valid Excel/CSV list or its name ends in
`.xlsx`, `.xls` or `.csv`; otherwise an alert is shown and the input state is
left unchanged, so the rejected file is never stored — acceptance is decided
purely by this client-side check. -/
theorem claim9_file_acceptance (st : InputState) (f : SelFile) :
    (fileAccepted f = true →
      handleFileChange st (some f) = ({ st with selectedFile := some f }, false)) ∧
    (fileAccepted f = false →
      handleFileChange st (some f) = (st, true)) := by
  constructor <;> intro h <;> simp [handleFileChange, h]

/-- Witness for C9: a concrete `.xlsx` file is stored without an alert, and a
concrete `.pdf` file is rejected with an alert and no state change. -/
theorem claim9_witness :
    handleFileChange inp0 (some fileXlsx) =
      ({ inp0 with selectedFile := some fileXlsx }, false) ∧
    handleFileChange inp0 (some filePdf) = (inp0, true) :=
  ⟨(claim9_file_acceptance inp0 fileXlsx).1 (by decide),
   (claim9_file_acceptance inp0 filePdf).2 (by decide)⟩

/-- Counterexample to C5: in a concrete send with a file and a chat response
carrying a 301-character summary, a chart and a table, the summary text the
results panel displays is the truncated summary, which differs from the
provided response string — so the summary is not displayed without
modification. -/
theorem claim5_counterexample :
    displayedSummary (handleSendMessage st0 "analyze" (some "d.xlsx") envC5).1 =
      some (truncatedSummary longSummary) ∧
    truncatedSummary longSummary ≠ longSummary :=
  ⟨rfl, truncatedSummary_longSummary_ne⟩

/-- Claim C5 as amended: for every chat response `{ response: X, chart, table }`
with chart and table present, on a send where a file accompanies the query or
data was previously uploaded (and any upload performed succeeds), the results
state holds exactly X and the provided chart and table, and the results panel
displays exactly the provided chart and table together with the summary text
truncated to its first 300 characters with an appended ellipsis when longer —
in particular the summary is shown unmodified whenever it has at most 300
characters. -/
theorem claim5_amended_results_display (st : ChatState) (txt : String)
    (file : Option String) (env : SendEnv) (c : ChatResp) (ch : ChartData)
    (tb : List TableRow)
    (hscope : st.hasUploadedData = true ∨ file.isSome = true)
    (hup : ∀ f, file = some f → ∃ u, env.uploadResult = Except.ok u)
    (hc : env.chatResult = Except.ok c)
    (hch : c.chart = some ch) (htb : c.table = some tb) :
    (handleSendMessage st txt file env).1.results =
      some { summary := c.response, chart := ch, table := tb } ∧
    renderRightPanel (handleSendMessage st txt file env).1 =
      RightPanel.resultsView (truncatedSummary c.response) ch tb ∧
    (c.response.length ≤ 300 → truncatedSummary c.response = c.response) := by
  have htrunc : c.response.length ≤ 300 → truncatedSummary c.response = c.response := by
    intro hle
    unfold truncatedSummary
    rw [if_neg]
    omega
  cases file with
  | none =>
    have h0 : st.hasUploadedData = true := by
      rcases hscope with h | h
      · exact h
      · simp at h
    unfold handleSendMessage
    simp [hc, hch, htb, h0, renderRightPanel]
    exact htrunc
  | some f =>
    obtain ⟨u, hu⟩ := hup f rfl
    unfold handleSendMessage
    simp [hu, hc, hch, htb, renderRightPanel]
    exact htrunc

/-- Witness for C5 as amended: a concrete send with a short summary stores and
displays exactly the provided values. -/
theorem claim5_witness :
    (handleSendMessage st0 "analyze" (some "d.xlsx") env42).1.results =
      some { summary := "ok", chart := chart0, table := table0 } :=
  (claim5_amended_results_display st0 "analyze" (some "d.xlsx") env42
    { response := "ok", chart := some chart0, table := some table0 } chart0 table0
    (Or.inr rfl) (fun _ _ => ⟨{ id := 42 }, rfl⟩) rfl rfl rfl).1

/-- Counterexample to C6: in a concrete send with a file whose successful chat
response has neither a chart nor a table field, the results panel does not
render the missing parts as empty or placeholder UI; it displays the
hardcoded non-empty sample chart and sample table instead. -/
theorem claim6_counterexample :
    renderRightPanel (handleSendMessage st0 "analyze" (some "d.xlsx") envC6).1 =
      RightPanel.resultsView "ok" defaultChart defaultTable ∧
    defaultChart ≠ { years := [], prices := [], demand := [] } ∧
    defaultTable ≠ [] :=
  ⟨by decide, by decide, by decide⟩

/-- Claim C6 as amended: for every successful chat response on a send with a
file whose upload succeeds, an absent chart or table field is substituted by
the hardcoded sample defaults (chart years 2021-2024; the Wakad/Aundh/Viman
Nagar table) rather than rendered empty; only an explicitly empty table array
reaches the DataTable component, which then renders its `No data available`
placeholder. -/
theorem claim6_amended_default_substitution (st : ChatState) (txt f : String)
    (env : SendEnv) (c : ChatResp) (u : UploadResp)
    (hu : env.uploadResult = Except.ok u) (hc : env.chatResult = Except.ok c) :
    (handleSendMessage st txt (some f) env).1.results =
      some { summary := c.response
           , chart := c.chart.getD defaultChart
           , table := c.table.getD defaultTable } ∧
    (c.chart = none → c.chart.getD defaultChart = defaultChart) ∧
    (c.table = none → c.table.getD defaultTable = defaultTable) ∧
    (c.table = some [] → c.table.getD defaultTable = [] ∧ dataTableView [] = TableView.noData) := by
  refine ⟨?_, ?_, ?_, ?_⟩
  · unfold handleSendMessage
    simp [hu, hc]
  · intro h; rw [h]; rfl
  · intro h; rw [h]; rfl
  · intro h; rw [h]; exact ⟨rfl, rfl⟩

/-- Witness for C6 as amended: the concrete chart-less, table-less response
yields exactly the sample defaults in the results state. -/
theorem claim6_witness :
    (handleSendMessage st0 "analyze" (some "d.xlsx") envC6).1.results =
      some { summary := "ok", chart := defaultChart, table := defaultTable } :=
  (claim6_amended_default_substitution st0 "analyze" "d.xlsx" envC6
    { response := "ok", chart := none, table := none } { id := 7 } rfl rfl).1

end RealEstateAI
